import Mathlib

/-!
Shallow embedding of the unsmartwatch running-tracker core: the geometry
module, pace estimator, heart-rate decoder, track/lap recorder and GPX
exporter, translated from `src/app/running-map.tsx` (variant A, the
unsmoothed recorder) and `src/unnamed/part_001` (variant B, the recorder
with the 5-second pace throttle, 60-second window and capacity-3
smoothing history).  JavaScript numbers are modelled as real numbers,
millisecond timestamps as integers, byte buffers as lists of naturals.
-/

namespace Unsmartwatch

/-- `interface Position` from the source: one location fix. -/
structure Position where
  latitude : ℝ
  longitude : ℝ
  longitude_accuracy : Option ℝ := none
  latitude_accuracy : Option ℝ := none
  altitude : Option ℝ := none
  altitude_accuracy : Option ℝ := none
  timestamp : ℤ

/-- `interface HeartRateData` from the source. -/
structure HeartRateData where
  timestamp : ℤ
  heartRate : ℤ
deriving DecidableEq

/-- `interface Lap` from the source. -/
structure Lap where
  number : ℕ
  time : String
  distance : ℝ
  pace : String
  avgHeartRate : Option ℤ

/-- `interface Activity` from the source. -/
structure Activity where
  startTime : ℤ
  endTime : ℤ
  totalTime : ℕ
  totalDistance : ℝ
  positions : List Position
  heartRates : List HeartRateData
  laps : List Lap

/-- The component-local mutable state of `RunningTracker` (both variants):
React `useState`/`useRef` cells that the recorder's callbacks read and
write.  `positions` stands for both the `positions` state and the
`lastPositionsRef` mirror, which the source keeps in sync. -/
structure RecorderState where
  isRunning : Bool
  time : ℕ
  distance : ℝ
  currentPace : String
  positions : List Position
  laps : List Lap
  watchId : Option ℕ
  heartRate : Option ℤ
  heartRateData : List HeartRateData
  activityCompleted : Bool
  activity : Option Activity
  startTime : Option ℤ
  lastPaceUpdate : ℤ
  recentPaces : List ℝ

/-- Dummy fix used to total `List.getLastD`/`List.headD` at places where
the source indexes `positions[0]` / `positions[length-1]` under a
length guard. -/
def defaultPosition : Position :=
  { latitude := 0, longitude := 0, timestamp := 0 }

/-! ## Geometry module -/

/-- `deg2rad` from the source. -/
noncomputable def deg2rad (deg : ℝ) : ℝ := deg * (Real.pi / 180)

/-- JavaScript's `Math.atan2(y, x)`. -/
noncomputable def atan2 (y x : ℝ) : ℝ :=
  if 0 < x then Real.arctan (y / x)
  else if x = 0 then
    (if 0 < y then Real.pi / 2 else if y < 0 then -(Real.pi / 2) else 0)
  else
    (if 0 ≤ y then Real.arctan (y / x) + Real.pi else Real.arctan (y / x) - Real.pi)

/-- `calculateDistance` from the source: haversine distance in km,
Earth radius 6371 km. -/
noncomputable def calculateDistance (pos1 pos2 : Position) : ℝ :=
  let R : ℝ := 6371
  let dLat := deg2rad (pos2.latitude - pos1.latitude)
  let dLon := deg2rad (pos2.longitude - pos1.longitude)
  let a := Real.sin (dLat / 2) * Real.sin (dLat / 2) +
    Real.cos (deg2rad pos1.latitude) * Real.cos (deg2rad pos2.latitude) *
      Real.sin (dLon / 2) * Real.sin (dLon / 2)
  let c := 2 * atan2 (Real.sqrt a) (Real.sqrt (1 - a))
  R * c

/-- `calculateTotalDistance` from the source: the `for` loop summing
`calculateDistance` over consecutive pairs. -/
noncomputable def calculateTotalDistance : List Position → ℝ
  | p1 :: p2 :: rest => calculateDistance p1 p2 + calculateTotalDistance (p2 :: rest)
  | _ => 0

/-- `getRecentPositions` from the source. -/
noncomputable def getRecentPositions (positions : List Position) (seconds : ℕ) : List Position :=
  if positions.length ≤ 1 then positions
  else
    let now := (positions.getLastD defaultPosition).timestamp
    let cutoff := now - (seconds : ℤ) * 1000
    positions.filter (fun pos => cutoff ≤ pos.timestamp)

/-! ## Formatting helpers -/

/-- JavaScript's `s.padStart(2, "0")`. -/
def padStart2 (s : String) : String :=
  if s.length < 2 then String.mk (List.replicate (2 - s.length) '0') ++ s else s

/-- `formatTime` from the source. -/
def formatTime (seconds : ℕ) : String :=
  let hrs := seconds / 3600
  let mins := (seconds % 3600) / 60
  let secs := seconds % 60
  if 0 < hrs then
    toString hrs ++ ":" ++ padStart2 (toString mins) ++ ":" ++ padStart2 (toString secs)
  else
    toString mins ++ ":" ++ padStart2 (toString secs)

/-- `formatPace` from the source: `minutes:seconds`, seconds obtained by
floor-truncating the fractional minutes, zero-padded to two digits. -/
noncomputable def formatPace (pace : ℝ) : String :=
  toString ⌊pace⌋ ++ ":" ++ padStart2 (toString ⌊(pace - (⌊pace⌋ : ℝ)) * 60⌋)

/-- JavaScript's `Math.round` on a rational: floor of `x + 1/2`. -/
def jsRound (q : ℚ) : ℤ := ⌊q + 1 / 2⌋

/-! ## Heart-rate decoder -/

/-- The body of the `for` loop in `findClosestHeartRate`, carrying the
`(closest, minDiff)` accumulator. -/
def fhrLoop (ts : ℤ) : List HeartRateData → HeartRateData × ℤ → HeartRateData × ℤ
  | [], acc => acc
  | hr :: rest, acc =>
    let diff := |ts - hr.timestamp|
    if diff < acc.2 then fhrLoop ts rest (hr, diff) else fhrLoop ts rest acc

/-- `findClosestHeartRate` from the source: linear scan for the minimum
absolute timestamp difference, returning the rate only when the minimum
is within 10000 ms. -/
def findClosestHeartRate (heartRates : List HeartRateData) (timestamp : ℤ) : Option ℤ :=
  match heartRates with
  | [] => none
  | h :: t =>
    let r := fhrLoop timestamp t (h, |timestamp - h.timestamp|)
    if r.2 ≤ 10000 then some r.1.heartRate else none

/-- The `characteristicvaluechanged` handler's decoding of the GATT
heart-rate measurement buffer: byte 0 is a flags byte; bit 0 set means a
little-endian 16-bit value at offset 1, clear means an 8-bit value at
offset 1.  Out-of-range reads (which would throw in `DataView`) give
`none`. -/
def decodeMeasurement : List ℕ → Option ℕ
  | flags :: b1 :: rest =>
    if flags &&& 1 ≠ 0 then
      match rest with
      | b2 :: _ => some (b1 + 256 * b2)
      | [] => none
    else some b1
  | _ => none

/-! ## Pace estimator (variant B, `src/unnamed/part_001`) -/

/-- The push-then-shift on `recentPacesRef`: append the new raw pace and,
if the history now exceeds capacity 3, evict the oldest entry. -/
def pushPace (hist : List ℝ) (pace : ℝ) : List ℝ :=
  let paces := hist ++ [pace]
  if 3 < paces.length then paces.drop 1 else paces

/-- The throttled pace block inside variant B's `watchPosition` callback
(lines 226-252 of `src/unnamed/part_001`), acting on the
`lastPaceUpdateRef`, `recentPacesRef` and `currentPace` cells.  Returns
the new `(lastPaceUpdate, recentPaces, currentPace)`. -/
noncomputable def paceUpdateB (lastPaceUpdate : ℤ) (recentPaces : List ℝ)
    (currentPace : String) (positions : List Position) (now : ℤ) :
    ℤ × List ℝ × String :=
  if 5000 < now - lastPaceUpdate then
    let recentPositions := getRecentPositions positions 60
    if 1 < recentPositions.length then
      let recentDistance := calculateTotalDistance recentPositions
      let recentTimeInMinutes :=
        (((recentPositions.getLastD defaultPosition).timestamp -
          (recentPositions.headD defaultPosition).timestamp : ℤ) : ℝ) / 1000 / 60
      if 0 < recentTimeInMinutes ∧ 0 < recentDistance then
        let pace := recentTimeInMinutes / recentDistance
        let paces := pushPace recentPaces pace
        let avgPace := paces.foldl (· + ·) 0 / (paces.length : ℝ)
        (now, paces, formatPace avgPace)
      else (now, recentPaces, currentPace)
    else (now, recentPaces, currentPace)
  else (lastPaceUpdate, recentPaces, currentPace)

/-- Variant B's `watchPosition` success callback
(`src/unnamed/part_001`, lines 203-255): append the fix, recompute the
total distance when at least two fixes exist, and run the throttled pace
update.  `now` is the wall clock (`Date.now()`) at delivery time. -/
noncomputable def fixReceivedB (st : RecorderState) (fix : Position) (now : ℤ) :
    RecorderState :=
  let positions := st.positions ++ [fix]
  if 1 < positions.length then
    let newDistance := calculateTotalDistance positions
    if 0 < st.time ∧ 0 < newDistance then
      let r := paceUpdateB st.lastPaceUpdate st.recentPaces st.currentPace positions now
      { st with positions := positions, distance := newDistance,
                lastPaceUpdate := r.1, recentPaces := r.2.1, currentPace := r.2.2 }
    else { st with positions := positions, distance := newDistance }
  else { st with positions := positions }

/-- Variant A's `watchPosition` success callback
(`src/app/running-map.tsx`, lines 331-368): no throttle, 30-second
window, no smoothing history. -/
noncomputable def fixReceivedA (st : RecorderState) (fix : Position) : RecorderState :=
  let positions := st.positions ++ [fix]
  if 1 < positions.length then
    let newDistance := calculateTotalDistance positions
    if 0 < st.time ∧ 0 < newDistance then
      let recentPositions := getRecentPositions positions 30
      if 1 < recentPositions.length then
        let recentDistance := calculateTotalDistance recentPositions
        let recentTimeInMinutes :=
          (((recentPositions.getLastD defaultPosition).timestamp -
            (recentPositions.headD defaultPosition).timestamp : ℤ) : ℝ) / 1000 / 60
        if 0 < recentTimeInMinutes then
          { st with positions := positions, distance := newDistance,
                    currentPace := formatPace (recentTimeInMinutes / recentDistance) }
        else { st with positions := positions, distance := newDistance }
      else { st with positions := positions, distance := newDistance }
    else { st with positions := positions, distance := newDistance }
  else { st with positions := positions }

/-! ## Track/Lap recorder transitions -/

/-- Stopping while recording: the timer effect's `else` branch (both
variants) plus the GPS effect clearing the watch.  If the elapsed
counter is positive and at least one fix was recorded, freeze an
`Activity` snapshot; `startTime` reproduces the JavaScript
`startTimeRef.current || endTime - time * 1000` (`0` is falsy). -/
noncomputable def stop (st : RecorderState) (endTime : ℤ) :
    RecorderState × Option Activity :=
  let halted := { st with isRunning := false, watchId := (none : Option ℕ) }
  if 0 < st.time ∧ 0 < st.positions.length then
    let act : Activity :=
      { startTime :=
          match st.startTime with
          | some s => if s = 0 then endTime - (st.time : ℤ) * 1000 else s
          | none => endTime - (st.time : ℤ) * 1000
        endTime := endTime
        totalTime := st.time
        totalDistance := st.distance
        positions := st.positions
        heartRates := st.heartRateData
        laps := st.laps }
    ({ halted with activityCompleted := true, activity := some act }, some act)
  else (halted, none)

/-- `recordLap` from the source: no-op unless running; otherwise append a
`Lap` snapshot whose average heart rate is `Math.round` of the mean over
the entire heart-rate sequence collected so far. -/
def recordLap (st : RecorderState) : RecorderState :=
  if st.isRunning then
    let avgHeartRate : Option ℤ :=
      if 0 < st.heartRateData.length then
        some (jsRound (((st.heartRateData.foldl (fun acc d => acc + d.heartRate) 0 : ℤ) : ℚ) /
          (st.heartRateData.length : ℚ)))
      else none
    { st with laps := st.laps ++
        [{ number := st.laps.length + 1
           time := formatTime st.time
           distance := st.distance
           pace := st.currentPace
           avgHeartRate := avgHeartRate }] }
  else st

/-- `reset` from the source: clear every accumulated sequence and
counter, restore the `"0:00"` pace, drop any in-flight activity and stop
the location watch.  (`heartRate` and `lastPaceUpdateRef` are left
untouched, as in the source.) -/
def reset (st : RecorderState) : RecorderState :=
  { st with isRunning := false, time := 0, distance := 0, currentPace := "0:00",
            positions := [], laps := [], heartRateData := [],
            activityCompleted := false, activity := none,
            startTime := none, recentPaces := [], watchId := none }

/-! ## GPX exporter

`generateGPX` calls two host primitives we take as parameters: JavaScript
number stringification (`numStr`, used for coordinates and altitude) and
`Date.toISOString` (`iso`, used for timestamps). -/

/-- The `<ele>` child: emitted exactly when the fix carries an altitude. -/
def eleStr (numStr : ℝ → String) (pos : Position) : String :=
  match pos.altitude with
  | some alt => "        <ele>" ++ numStr alt ++ "</ele>\n"
  | none => ""

/-- The `<time>` child: always emitted. -/
def timeStr (iso : ℤ → String) (pos : Position) : String :=
  "        <time>" ++ iso pos.timestamp ++ "</time>\n"

/-- The `<extensions>` block: the source guards it with
`if (closestHR)`, which is JavaScript truthiness — skipped both when
`findClosestHeartRate` returns `null` and when it returns `0`. -/
def extStr (heartRates : List HeartRateData) (pos : Position) : String :=
  match findClosestHeartRate heartRates pos.timestamp with
  | some hr =>
    if hr = 0 then ""
    else
      "        <extensions>\n          <gpxtpx:TrackPointExtension xmlns:gpxtpx=\"http://www.garmin.com/xmlschemas/TrackPointExtension/v1\">\n            <gpxtpx:hr>" ++
        toString hr ++
        "</gpxtpx:hr>\n          </gpxtpx:TrackPointExtension>\n        </extensions>\n"
  | none => ""

/-- One `<trkpt>` element, children in source order:
`<ele>` (optional), `<time>`, `<extensions>` (optional). -/
def posToTrkpt (numStr : ℝ → String) (iso : ℤ → String)
    (heartRates : List HeartRateData) (pos : Position) : String :=
  ("      <trkpt lat=\"" ++ numStr pos.latitude ++ "\" lon=\"" ++ numStr pos.longitude ++ "\">\n")
    ++ eleStr numStr pos ++ timeStr iso pos ++ extStr heartRates pos ++ "      </trkpt>\n"

/-- The fixed document prefix built before the track-point loop. -/
def gpxHeader (iso : ℤ → String) (act : Activity) : String :=
  let startDate := iso act.startTime
  "<?xml version=\"1.0\" encoding=\"UTF-8\"?>\n<gpx creator=\"Running Tracker App\" version=\"1.1\" xmlns=\"http://www.topografix.com/GPX/1/1\">\n  <metadata>\n    <name>Running Activity</name>\n    <time>" ++
    startDate ++
    "</time>\n  </metadata>\n  <trk>\n    <name>Running Activity on " ++
    ((startDate.splitOn "T").headD "") ++
    "</name>\n    <trkseg>\n"

/-- The fixed document suffix. -/
def gpxFooter : String := "    </trkseg>\n  </trk>\n</gpx>"

/-- `generateGPX` from the source: the header string, the `forEach` loop
appending one `<trkpt>` per fix, then the footer. -/
def generateGPX (numStr : ℝ → String) (iso : ℤ → String) (act : Activity) : String :=
  (act.positions.foldl (fun g pos => g ++ posToTrkpt numStr iso act.heartRates pos)
    (gpxHeader iso act)) ++ gpxFooter

/-! ## Concrete fixtures used by closed theorems and witnesses -/

/-- A fix at the origin, timestamp 0. -/
def f0 : Position := { latitude := 0, longitude := 0, timestamp := 0 }

/-- A fix 1/100 degree of latitude north of `f0`, 40 seconds later. -/
noncomputable def f1 : Position := { latitude := 1 / 100, longitude := 0, timestamp := 40000 }

/-- A freshly started recorder 40 seconds in, no fixes yet. -/
noncomputable def st0 : RecorderState :=
  { isRunning := true, time := 40, distance := 0, currentPace := "0:00",
    positions := [], laps := [], watchId := some 1, heartRate := none,
    heartRateData := [], activityCompleted := false, activity := none,
    startTime := some 1, lastPaceUpdate := 0, recentPaces := [] }

/-- A single heart-rate sample whose value is 0 bpm. -/
def hrs0 : List HeartRateData := [{ timestamp := 0, heartRate := 0 }]

/-- A recorder mid-session with two heart-rate samples recorded. -/
noncomputable def stLap : RecorderState :=
  { st0 with heartRateData := [{ timestamp := 0, heartRate := 100 },
                               { timestamp := 1000, heartRate := 101 }] }

/-! ## Geometry lemmas -/

theorem atan2_nonneg {y x : ℝ} (hy : 0 ≤ y) (hx : 0 ≤ x) : 0 ≤ atan2 y x := by
  unfold atan2
  rcases eq_or_lt_of_le hx with hx0 | hxpos
  · rw [if_neg (by rw [← hx0]; exact lt_irrefl 0), if_pos hx0.symm]
    rcases eq_or_lt_of_le hy with hy0 | hypos
    · rw [if_neg (by rw [← hy0]; exact lt_irrefl 0), if_neg (by rw [← hy0]; exact lt_irrefl 0)]
    · rw [if_pos hypos]
      linarith [Real.pi_pos]
  · rw [if_pos hxpos]
    have hq : (0:ℝ) ≤ y / x := div_nonneg hy hxpos.le
    calc (0:ℝ) = Real.arctan 0 := Real.arctan_zero.symm
    _ ≤ Real.arctan (y / x) := Real.arctan_strictMono.monotone hq

theorem calculateDistance_nonneg (p q : Position) : 0 ≤ calculateDistance p q := by
  simp only [calculateDistance]
  apply mul_nonneg (by norm_num)
  apply mul_nonneg (by norm_num)
  exact atan2_nonneg (Real.sqrt_nonneg _) (Real.sqrt_nonneg _)

theorem calculateTotalDistance_cons2 (p q : Position) (rest : List Position) :
    calculateTotalDistance (p :: q :: rest) =
      calculateDistance p q + calculateTotalDistance (q :: rest) := rfl

theorem calculateTotalDistance_le_append (p : Position) :
    ∀ l : List Position, calculateTotalDistance l ≤ calculateTotalDistance (l ++ [p])
  | [] => by simp [calculateTotalDistance]
  | [a] => by simpa [calculateTotalDistance] using calculateDistance_nonneg a p
  | a :: b :: t => by
    have ih := calculateTotalDistance_le_append p (b :: t)
    simp only [List.cons_append] at ih ⊢
    rw [calculateTotalDistance_cons2, calculateTotalDistance_cons2]
    linarith

theorem calculateTotalDistance_eq_sum :
    ∀ l : List Position,
      calculateTotalDistance l =
        ((l.zip l.tail).map fun pq => calculateDistance pq.1 pq.2).sum
  | [] => by simp [calculateTotalDistance]
  | [a] => by simp [calculateTotalDistance]
  | a :: b :: t => by
    have ih := calculateTotalDistance_eq_sum (b :: t)
    rw [calculateTotalDistance_cons2, ih]
    simp [List.zip_cons_cons]

/-- On the positive branch of `atan2`, the haversine arc reconstructs the
central angle `2 t` from `sin t` for `t` in the first quadrant. -/
theorem haversine_arc (t : ℝ) (h0 : 0 ≤ t) (h1 : t < Real.pi / 2) :
    2 * atan2 (Real.sqrt (Real.sin t * Real.sin t))
      (Real.sqrt (1 - Real.sin t * Real.sin t)) = 2 * t := by
  have hπ := Real.pi_pos
  have hs : 0 ≤ Real.sin t := Real.sin_nonneg_of_nonneg_of_le_pi h0 (by linarith)
  have h2 : 1 - Real.sin t * Real.sin t = Real.cos t * Real.cos t := by
    nlinarith [Real.sin_sq_add_cos_sq t]
  have hc : 0 < Real.cos t := Real.cos_pos_of_mem_Ioo ⟨by linarith, h1⟩
  rw [Real.sqrt_mul_self hs, h2, Real.sqrt_mul_self hc.le]
  unfold atan2
  rw [if_pos hc, ← Real.tan_eq_sin_div_cos, Real.arctan_tan (by linarith) h1]

/-- Two fixes on the same meridian, at most 180 degrees of latitude
apart: the haversine distance is exactly radius times the latitude
difference in radians. -/
theorem calculateDistance_same_lon (p q : Position) (hlon : q.longitude = p.longitude)
    (h0 : 0 ≤ q.latitude - p.latitude) (h1 : q.latitude - p.latitude < 180) :
    calculateDistance p q = 6371 * deg2rad (q.latitude - p.latitude) := by
  have hπ := Real.pi_pos
  have key := haversine_arc ((q.latitude - p.latitude) * (Real.pi / 180) / 2)
    (div_nonneg (mul_nonneg h0 (by positivity)) (by norm_num))
    (by nlinarith [mul_pos (show (0:ℝ) < 180 - (q.latitude - p.latitude) by linarith) hπ])
  simp only [calculateDistance, deg2rad, hlon, sub_self, zero_mul, zero_div,
    Real.sin_zero, mul_zero, add_zero]
  rw [key]
  ring

theorem calculateDistance_self (p : Position) : calculateDistance p p = 0 := by
  have h := calculateDistance_same_lon p p rfl (by simp) (by norm_num)
  simpa [deg2rad] using h

/-! ## Claim theorems -/

/-- C5: `calculateTotalDistance` returns 0 on sequences of length at most
1; on longer sequences it is the sum over consecutive pairs of the
haversine distance (`calculateDistance`, Earth radius 6371 km); two equal
consecutive points contribute 0 to the total. -/
theorem c5_totalDistance (l : List Position) (p : Position) (rest : List Position) :
    (l.length ≤ 1 → calculateTotalDistance l = 0) ∧
    calculateTotalDistance l =
      ((l.zip l.tail).map fun pq => calculateDistance pq.1 pq.2).sum ∧
    calculateDistance p p = 0 ∧
    calculateTotalDistance (p :: p :: rest) = calculateTotalDistance (p :: rest) := by
  refine ⟨?_, calculateTotalDistance_eq_sum l, calculateDistance_self p, ?_⟩
  · intro h
    match l with
    | [] => rfl
    | [a] => rfl
    | a :: b :: t => simp at h
  · rw [calculateTotalDistance_cons2, calculateDistance_self, zero_add]

/-- C5 witness: the length hypothesis discharged at the empty sequence. -/
theorem c5_totalDistance_witness :
    ([] : List Position).length ≤ 1 ∧ calculateTotalDistance [] = 0 :=
  ⟨by decide, (c5_totalDistance [] f0 []).1 (by decide)⟩

/-- C10: appending a fix never decreases the total distance, because
`calculateDistance` is non-negative for every pair of points. -/
theorem c10_append_monotone (l : List Position) (p a b : Position) :
    0 ≤ calculateDistance a b ∧
    calculateTotalDistance l ≤ calculateTotalDistance (l ++ [p]) :=
  ⟨calculateDistance_nonneg a b, calculateTotalDistance_le_append p l⟩

/-- C7: heart-rate measurement decoding.  With bit 0 of the flags byte
clear the rate is the unsigned 8-bit value at offset 1; with bit 0 set it
is the little-endian unsigned 16-bit value at offset 1.  In particular
flags `0x00` with data byte 72 decodes to 72, and flags `0x01` with
little-endian 16-bit value 150 decodes to 150. -/
theorem c7_decodeMeasurement (flags b1 b2 : ℕ) (rest : List ℕ) :
    (flags &&& 1 = 0 → decodeMeasurement (flags :: b1 :: rest) = some b1) ∧
    (flags &&& 1 ≠ 0 → decodeMeasurement (flags :: b1 :: b2 :: rest) = some (b1 + 256 * b2)) ∧
    decodeMeasurement [0, 72] = some 72 ∧
    decodeMeasurement [1, 150, 0] = some 150 := by
  refine ⟨?_, ?_, by decide, by decide⟩
  · intro h
    simp only [decodeMeasurement]
    rw [if_neg (fun hn => hn h)]
  · intro h
    simp only [decodeMeasurement]
    rw [if_pos h]

/-- C7 witness: both flag branches at the spec's concrete buffers. -/
theorem c7_decodeMeasurement_witness :
    decodeMeasurement [0, 72] = some 72 ∧ decodeMeasurement [1, 150, 0] = some 150 :=
  ⟨(c7_decodeMeasurement 0 72 0 []).1 (by decide),
   (c7_decodeMeasurement 1 150 0 []).2.1 (by decide)⟩

/-- C8: after `reset()` all sequences are empty, the counters and the
distance are 0, the pace string is `"0:00"`, the pace history is empty,
any in-flight activity is cleared and the location watch is stopped. -/
theorem c8_reset (st : RecorderState) :
    (reset st).positions = [] ∧ (reset st).laps = [] ∧
    (reset st).heartRateData = [] ∧ (reset st).time = 0 ∧
    (reset st).distance = 0 ∧ (reset st).currentPace = "0:00" ∧
    (reset st).recentPaces = [] ∧ (reset st).activity = none ∧
    (reset st).activityCompleted = false ∧ (reset st).watchId = none ∧
    (reset st).isRunning = false :=
  ⟨rfl, rfl, rfl, rfl, rfl, rfl, rfl, rfl, rfl, rfl, rfl⟩

/-- C1: stopping while recording produces an `Activity` iff the elapsed
counter is positive and at least one fix was recorded; the activity
carries `totalTime = time`, `totalDistance = distance` and copies of the
fix, heart-rate and lap sequences; otherwise no activity is produced and
the recorder ends stopped with its watch cleared. -/
theorem c1_stop (st : RecorderState) (endTime : ℤ) :
    (0 < st.time ∧ 0 < st.positions.length →
      ∃ a : Activity,
        (stop st endTime).2 = some a ∧
        (stop st endTime).1.activity = some a ∧
        a.totalTime = st.time ∧ a.totalDistance = st.distance ∧
        a.positions = st.positions ∧ a.heartRates = st.heartRateData ∧
        a.laps = st.laps ∧ a.endTime = endTime ∧
        (stop st endTime).1.isRunning = false ∧
        (stop st endTime).1.watchId = none) ∧
    (¬(0 < st.time ∧ 0 < st.positions.length) →
      (stop st endTime).2 = none ∧
      (stop st endTime).1.activity = st.activity ∧
      (stop st endTime).1.activityCompleted = st.activityCompleted ∧
      (stop st endTime).1.positions = st.positions ∧
      (stop st endTime).1.isRunning = false ∧
      (stop st endTime).1.watchId = none) := by
  constructor
  · intro h
    simp only [stop, if_pos h]
    exact ⟨_, rfl, rfl, rfl, rfl, rfl, rfl, rfl, rfl, trivial, trivial⟩
  · intro h
    simp only [stop, if_neg h]
    refine ⟨?_, ?_, ?_, ?_, ?_, ?_⟩ <;> trivial

/-- C1 witness: a stop with one fix and 40 elapsed seconds produces the
activity; a stop with no fixes produces none. -/
theorem c1_stop_witness :
    (∃ a : Activity,
      (stop { st0 with positions := [f0] } 100000).2 = some a ∧ a.totalTime = 40) ∧
    (stop st0 100000).2 = none := by
  constructor
  · obtain ⟨a, h1, _, h3, _⟩ :=
      (c1_stop { st0 with positions := [f0] } 100000).1 ⟨by decide, by decide⟩
    exact ⟨a, h1, h3.trans rfl⟩
  · exact ((c1_stop st0 100000).2 (by decide)).1

/-- C6: `recordLap` is a no-op unless running; otherwise it appends
exactly one lap whose ordinal is the previous lap count plus 1, whose
time, distance and pace are the current accumulated values, and whose
average heart rate is the rounded mean over the entire heart-rate sample
sequence collected so far (absent when no samples exist). -/
theorem c6_recordLap (st : RecorderState) :
    (st.isRunning = false → recordLap st = st) ∧
    (st.isRunning = true →
      (recordLap st).laps = st.laps ++
        [{ number := st.laps.length + 1, time := formatTime st.time,
           distance := st.distance, pace := st.currentPace,
           avgHeartRate :=
             if 0 < st.heartRateData.length then
               some (jsRound
                 (((st.heartRateData.foldl (fun acc d => acc + d.heartRate) 0 : ℤ) : ℚ) /
                   (st.heartRateData.length : ℚ)))
             else none }] ∧
      (recordLap st).laps.map Lap.number =
        st.laps.map Lap.number ++ [st.laps.length + 1]) := by
  constructor
  · intro h
    simp [recordLap, h]
  · intro h
    refine ⟨by simp [recordLap, h], ?_⟩
    simp [recordLap, h]

/-- C6 witness: one lap recorded at 40 elapsed seconds with samples 100
and 101 bpm; the mean 100.5 rounds to 101. -/
theorem c6_recordLap_witness :
    stLap.isRunning = true ∧
    (recordLap stLap).laps.map Lap.number = [1] ∧
    (recordLap stLap).laps.map Lap.time = ["0:40"] ∧
    (recordLap stLap).laps.map Lap.avgHeartRate = [some 101] := by
  have h := (c6_recordLap stLap).2 rfl
  refine ⟨rfl, ?_, ?_, ?_⟩
  · rw [h.2]
    rfl
  · rw [h.1]
    simp [formatTime, padStart2]
    rfl
  · rw [h.1]
    simp only [stLap, st0, List.map_append]
    norm_num [List.foldl, jsRound]

/-! ## Closest heart-rate sample: loop lemmas -/

theorem fhrLoop_snd_le (ts : ℤ) :
    ∀ (rest : List HeartRateData) (acc : HeartRateData × ℤ),
      (fhrLoop ts rest acc).2 ≤ acc.2 ∧
      ∀ hr ∈ rest, (fhrLoop ts rest acc).2 ≤ |ts - hr.timestamp|
  | [], acc => ⟨le_refl _, fun hr h => absurd h (List.not_mem_nil hr)⟩
  | hr :: rest, acc => by
    simp only [fhrLoop]
    by_cases hlt : |ts - hr.timestamp| < acc.2
    · rw [if_pos hlt]
      have ih := fhrLoop_snd_le ts rest (hr, |ts - hr.timestamp|)
      refine ⟨le_trans ih.1 hlt.le, ?_⟩
      intro x hx
      rcases List.mem_cons.1 hx with rfl | hx'
      · exact ih.1
      · exact ih.2 x hx'
    · rw [if_neg hlt]
      have ih := fhrLoop_snd_le ts rest acc
      refine ⟨ih.1, ?_⟩
      intro x hx
      rcases List.mem_cons.1 hx with rfl | hx'
      · exact le_trans ih.1 (not_lt.1 hlt)
      · exact ih.2 x hx'

theorem fhrLoop_snd_mem (ts : ℤ) :
    ∀ (rest : List HeartRateData) (acc : HeartRateData × ℤ),
      (fhrLoop ts rest acc).2 = acc.2 ∨
      ∃ hr ∈ rest, (fhrLoop ts rest acc).2 = |ts - hr.timestamp|
  | [], _ => Or.inl rfl
  | hr :: rest, acc => by
    simp only [fhrLoop]
    by_cases hlt : |ts - hr.timestamp| < acc.2
    · rw [if_pos hlt]
      rcases fhrLoop_snd_mem ts rest (hr, |ts - hr.timestamp|) with h | ⟨x, hx, he⟩
      · exact Or.inr ⟨hr, List.mem_cons_self hr rest, h⟩
      · exact Or.inr ⟨x, List.mem_cons_of_mem hr hx, he⟩
    · rw [if_neg hlt]
      rcases fhrLoop_snd_mem ts rest acc with h | ⟨x, hx, he⟩
      · exact Or.inl h
      · exact Or.inr ⟨x, List.mem_cons_of_mem hr hx, he⟩

theorem fhrLoop_const (ts : ℤ) :
    ∀ (rest : List HeartRateData) (acc : HeartRateData × ℤ),
      (∀ hr ∈ rest, acc.2 ≤ |ts - hr.timestamp|) → fhrLoop ts rest acc = acc
  | [], _, _ => rfl
  | hr :: rest, acc, h => by
    simp only [fhrLoop]
    rw [if_neg (not_lt.2 (h hr (List.mem_cons_self hr rest)))]
    exact fhrLoop_const ts rest acc (fun x hx => h x (List.mem_cons_of_mem hr hx))

theorem fhrLoop_first (ts : ℤ) :
    ∀ (rest : List HeartRateData) (acc : HeartRateData × ℤ) (i : Fin rest.length),
      (∀ hr ∈ rest, |ts - (rest.get i).timestamp| ≤ |ts - hr.timestamp|) →
      |ts - (rest.get i).timestamp| < acc.2 →
      (∀ j : Fin rest.length, j < i →
        |ts - (rest.get i).timestamp| < |ts - (rest.get j).timestamp|) →
      fhrLoop ts rest acc = (rest.get i, |ts - (rest.get i).timestamp|)
  | [], _, i, _, _, _ => absurd i.2 (by simp)
  | hr :: rest, acc, ⟨0, h0⟩, hmin, hlt, _ => by
    rw [show ((hr :: rest).get ⟨0, h0⟩) = hr from rfl] at hmin hlt ⊢
    have hm : ∀ x ∈ rest, |ts - hr.timestamp| ≤ |ts - x.timestamp| :=
      fun x hx => hmin x (List.mem_cons_of_mem hr hx)
    simp only [fhrLoop]
    rw [if_pos hlt]
    exact fhrLoop_const ts rest (hr, |ts - hr.timestamp|) hm
  | hr :: rest, acc, ⟨k+1, hk⟩, hmin, hlt, hfirst => by
    have hk' : k < rest.length := Nat.lt_of_succ_lt_succ hk
    have hhd : |ts - (rest.get ⟨k, hk'⟩).timestamp| < |ts - hr.timestamp| :=
      hfirst ⟨0, Nat.succ_pos _⟩ (Nat.succ_pos k)
    have hm : ∀ x ∈ rest, |ts - (rest.get ⟨k, hk'⟩).timestamp| ≤ |ts - x.timestamp| :=
      fun x hx => hmin x (List.mem_cons_of_mem hr hx)
    have hf : ∀ j : Fin rest.length, j < ⟨k, hk'⟩ →
        |ts - (rest.get ⟨k, hk'⟩).timestamp| < |ts - (rest.get j).timestamp| :=
      fun j hj => hfirst ⟨j.1 + 1, Nat.succ_lt_succ j.2⟩ (Nat.succ_lt_succ hj)
    rw [show ((hr :: rest).get ⟨k + 1, hk⟩) = rest.get ⟨k, hk'⟩ from rfl] at hlt ⊢
    simp only [fhrLoop]
    by_cases hcase : |ts - hr.timestamp| < acc.2
    · rw [if_pos hcase]
      exact fhrLoop_first ts rest (hr, |ts - hr.timestamp|) ⟨k, hk'⟩ hm hhd hf
    · rw [if_neg hcase]
      exact fhrLoop_first ts rest acc ⟨k, hk'⟩ hm hlt hf

theorem findClosest_none_iff (ts : ℤ) :
    ∀ hrs : List HeartRateData,
      findClosestHeartRate hrs ts = none ↔
        hrs = [] ∨ ∀ hr ∈ hrs, 10000 < |ts - hr.timestamp|
  | [] => by simp [findClosestHeartRate]
  | h :: t => by
    simp only [findClosestHeartRate]
    constructor
    · intro hnone
      by_cases hle : (fhrLoop ts t (h, |ts - h.timestamp|)).2 ≤ 10000
      · rw [if_pos hle] at hnone
        exact absurd hnone (by simp)
      · right
        intro x hx
        have hlem := fhrLoop_snd_le ts t (h, |ts - h.timestamp|)
        have hgt : 10000 < (fhrLoop ts t (h, |ts - h.timestamp|)).2 := not_le.1 hle
        rcases List.mem_cons.1 hx with rfl | hx'
        · exact lt_of_lt_of_le hgt hlem.1
        · exact lt_of_lt_of_le hgt (hlem.2 x hx')
    · intro hall
      rcases hall with he | hall
      · exact absurd he (by simp)
      · have hgt : 10000 < (fhrLoop ts t (h, |ts - h.timestamp|)).2 := by
          rcases fhrLoop_snd_mem ts t (h, |ts - h.timestamp|) with he | ⟨x, hx, he⟩
          · rw [he]
            exact hall h (List.mem_cons_self h t)
          · rw [he]
            exact hall x (List.mem_cons_of_mem h hx)
        rw [if_neg (not_le.2 hgt)]

theorem findClosest_first (ts : ℤ) :
    ∀ (hrs : List HeartRateData) (i : Fin hrs.length),
      (∀ hr ∈ hrs, |ts - (hrs.get i).timestamp| ≤ |ts - hr.timestamp|) →
      (∀ j : Fin hrs.length, j < i →
        |ts - (hrs.get i).timestamp| < |ts - (hrs.get j).timestamp|) →
      |ts - (hrs.get i).timestamp| ≤ 10000 →
      findClosestHeartRate hrs ts = some (hrs.get i).heartRate
  | [], i, _, _, _ => absurd i.2 (by simp)
  | h :: t, ⟨0, h0⟩, hmin, _, hle => by
    rw [show ((h :: t).get ⟨0, h0⟩) = h from rfl] at hmin hle ⊢
    have hm : ∀ x ∈ t, |ts - h.timestamp| ≤ |ts - x.timestamp| :=
      fun x hx => hmin x (List.mem_cons_of_mem h hx)
    simp only [findClosestHeartRate]
    rw [fhrLoop_const ts t (h, |ts - h.timestamp|) hm]
    dsimp only
    rw [if_pos hle]
  | h :: t, ⟨k+1, hk⟩, hmin, hfirst, hle => by
    have hk' : k < t.length := Nat.lt_of_succ_lt_succ hk
    have hhd : |ts - (t.get ⟨k, hk'⟩).timestamp| < |ts - h.timestamp| :=
      hfirst ⟨0, Nat.succ_pos _⟩ (Nat.succ_pos k)
    have hm : ∀ x ∈ t, |ts - (t.get ⟨k, hk'⟩).timestamp| ≤ |ts - x.timestamp| :=
      fun x hx => hmin x (List.mem_cons_of_mem h hx)
    have hf : ∀ j : Fin t.length, j < ⟨k, hk'⟩ →
        |ts - (t.get ⟨k, hk'⟩).timestamp| < |ts - (t.get j).timestamp| :=
      fun j hj => hfirst ⟨j.1 + 1, Nat.succ_lt_succ j.2⟩ (Nat.succ_lt_succ hj)
    rw [show ((h :: t).get ⟨k + 1, hk⟩) = t.get ⟨k, hk'⟩ from rfl] at hle ⊢
    simp only [findClosestHeartRate]
    rw [fhrLoop_first ts t (h, |ts - h.timestamp|) ⟨k, hk'⟩ hm hhd hf]
    dsimp only
    rw [if_pos hle]

/-- C3: `findClosestHeartRate` returns `none` exactly when the list is
empty or every sample's timestamp differs from the target by more than
10000 ms (i.e. the minimum difference exceeds 10000 ms); and whenever an
index attains the minimum difference, is the earliest such index, and its
difference is within 10000 ms (boundary inclusive), the rate of that
sample is returned. -/
theorem c3_findClosestHeartRate (hrs : List HeartRateData) (ts : ℤ) :
    (findClosestHeartRate hrs ts = none ↔
      hrs = [] ∨ ∀ hr ∈ hrs, 10000 < |ts - hr.timestamp|) ∧
    (∀ i : Fin hrs.length,
      (∀ hr ∈ hrs, |ts - (hrs.get i).timestamp| ≤ |ts - hr.timestamp|) →
      (∀ j : Fin hrs.length, j < i →
        |ts - (hrs.get i).timestamp| < |ts - (hrs.get j).timestamp|) →
      |ts - (hrs.get i).timestamp| ≤ 10000 →
      findClosestHeartRate hrs ts = some (hrs.get i).heartRate) :=
  ⟨findClosest_none_iff ts hrs,
   fun i hmin hfirst hle => findClosest_first ts hrs i hmin hfirst hle⟩

/-- C3 witness: target 10005 against samples at 0 and 5 ms; the second
sample's difference is exactly 10000 ms (boundary inclusive) and is the
unique minimum, so its rate 61 is returned. -/
theorem c3_findClosestHeartRate_witness :
    findClosestHeartRate
      [{ timestamp := 0, heartRate := 60 }, { timestamp := 5, heartRate := 61 }] 10005 =
      some 61 :=
  (c3_findClosestHeartRate
    [{ timestamp := 0, heartRate := 60 }, { timestamp := 5, heartRate := 61 }] 10005).2
    ⟨1, by decide⟩ (by decide) (by decide) (by decide)

/-! ## GPX exporter lemmas -/

theorem joinAux : ∀ (l : List String) (a : String), l.foldl (· ++ ·) a = a ++ String.join l
  | [], a => by simp [String.join, String.append_empty]
  | s :: t, a => by
    have ih1 := joinAux t (a ++ s)
    have hj : String.join (s :: t) = s ++ String.join t := by
      have ih2 := joinAux t s
      simp only [String.join, List.foldl_cons]
      rw [String.empty_append]
      exact ih2
    simp only [List.foldl_cons]
    rw [ih1, hj, String.append_assoc]

theorem join_cons (s : String) (l : List String) : String.join (s :: l) = s ++ String.join l := by
  have ih := joinAux l s
  simp only [String.join, List.foldl_cons]
  rw [String.empty_append]
  exact ih

theorem gpxLoop (numStr : ℝ → String) (iso : ℤ → String) (hrs : List HeartRateData) :
    ∀ (l : List Position) (init : String),
      l.foldl (fun g pos => g ++ posToTrkpt numStr iso hrs pos) init =
        init ++ String.join (l.map (posToTrkpt numStr iso hrs))
  | [], init => by simp [String.join, String.append_empty]
  | p :: l, init => by
    have ih := gpxLoop numStr iso hrs l (init ++ posToTrkpt numStr iso hrs p)
    simp only [List.foldl_cons, List.map_cons]
    rw [ih, join_cons, String.append_assoc]

theorem eleStr_ne_iff (numStr : ℝ → String) (pos : Position) :
    eleStr numStr pos ≠ "" ↔ pos.altitude ≠ none := by
  cases halt : pos.altitude with
  | none => simp [eleStr, halt]
  | some alt =>
    simp only [eleStr, halt, ne_eq]
    constructor
    · intro _
      simp
    · intro _ hcon
      have := congrArg String.length hcon
      simp [String.length_append] at this
      exact absurd this.1.1 (by decide)

set_option maxRecDepth 8000 in
theorem extStr_ne_iff (hrs : List HeartRateData) (pos : Position) :
    extStr hrs pos ≠ "" ↔
      ∃ hr, findClosestHeartRate hrs pos.timestamp = some hr ∧ hr ≠ 0 := by
  cases hfind : findClosestHeartRate hrs pos.timestamp with
  | none => simp [extStr, hfind]
  | some hr =>
    simp only [extStr, hfind]
    by_cases h0 : hr = 0
    · subst h0
      simp
    · rw [if_neg h0]
      constructor
      · intro _
        exact ⟨hr, rfl, h0⟩
      · intro _ hcon
        have := congrArg String.length hcon
        simp [String.length_append] at this
        exact absurd this.1.1 (by decide)

/-- C4 (amended): the GPX document is the fixed header, one `<trkpt>` per
fix in recorded order, then the footer; each `<trkpt>`'s children are, in
order, a conditional `<ele>`, `<time>`, and a conditional `<extensions>`
block; the `<ele>` element appears iff the fix has an altitude; the
`<extensions>` heart-rate block appears iff `findClosestHeartRate` yields
a NONZERO rate within 10000 ms (the source's `if (closestHR)` truthiness
check also drops a found rate of 0). -/
theorem c4_generateGPX_amended (numStr : ℝ → String) (iso : ℤ → String)
    (act : Activity) (hrs : List HeartRateData) (pos : Position) :
    generateGPX numStr iso act =
      gpxHeader iso act ++
        String.join (act.positions.map (posToTrkpt numStr iso act.heartRates)) ++
        gpxFooter ∧
    posToTrkpt numStr iso hrs pos =
      ("      <trkpt lat=\"" ++ numStr pos.latitude ++ "\" lon=\"" ++
          numStr pos.longitude ++ "\">\n") ++
        eleStr numStr pos ++ timeStr iso pos ++ extStr hrs pos ++ "      </trkpt>\n" ∧
    (eleStr numStr pos ≠ "" ↔ pos.altitude ≠ none) ∧
    (extStr hrs pos ≠ "" ↔
      ∃ hr, findClosestHeartRate hrs pos.timestamp = some hr ∧ hr ≠ 0) := by
  refine ⟨?_, rfl, eleStr_ne_iff numStr pos, extStr_ne_iff hrs pos⟩
  unfold generateGPX
  rw [gpxLoop]

set_option maxRecDepth 8000 in
/-- C4 counterexample: with a single heart-rate sample of 0 bpm at the
fix's own timestamp, `findClosestHeartRate` finds a value within
10000 ms, yet the `<extensions>` block is omitted — refuting the claim
that the block is present iff a value is found. -/
theorem c4_generateGPX_counterexample :
    ¬((extStr hrs0 f0 ≠ "") ↔ (findClosestHeartRate hrs0 f0.timestamp).isSome = true) := by
  intro h
  have hsome : (findClosestHeartRate hrs0 f0.timestamp).isSome = true := by decide
  have hempty : extStr hrs0 f0 = "" := by decide
  exact absurd hempty (h.2 hsome)

/-! ## Pace estimator lemmas -/

theorem pushPace_length (hist : List ℝ) (p : ℝ) (h : hist.length ≤ 3) :
    (pushPace hist p).length ≤ 3 := by
  simp only [pushPace]
  split_ifs with hc
  · simp only [List.length_drop, List.length_append, List.length_singleton]
    omega
  · simp only [List.length_append, List.length_singleton] at hc ⊢
    omega

theorem pu_throttle (last : ℤ) (hist : List ℝ) (cp : String) (pos : List Position)
    (now : ℤ) (h : now - last ≤ 5000) :
    paceUpdateB last hist cp pos now = (last, hist, cp) := by
  simp only [paceUpdateB]
  rw [if_neg (not_lt.2 h)]

theorem pu_skip_window (last : ℤ) (hist : List ℝ) (cp : String) (pos : List Position)
    (now : ℤ) (h : (getRecentPositions pos 60).length ≤ 1) :
    (paceUpdateB last hist cp pos now).2 = (hist, cp) := by
  simp only [paceUpdateB]
  split_ifs with h1 h2 h3
  · exact absurd h2 (not_lt.2 h)
  · rfl
  · rfl
  · rfl

theorem pu_skip_dist (last : ℤ) (hist : List ℝ) (cp : String) (pos : List Position)
    (now : ℤ) (h : calculateTotalDistance (getRecentPositions pos 60) = 0) :
    (paceUpdateB last hist cp pos now).2 = (hist, cp) := by
  simp only [paceUpdateB]
  split_ifs with h1 h2 h3
  · have hno : ¬(0 < calculateTotalDistance (getRecentPositions pos 60)) := by
      rw [h]
      exact lt_irrefl 0
    exact absurd h3.2 hno
  · rfl
  · rfl
  · rfl

theorem pu_skip_time (last : ℤ) (hist : List ℝ) (cp : String) (pos : List Position)
    (now : ℤ)
    (h : ((((getRecentPositions pos 60).getLastD defaultPosition).timestamp -
        ((getRecentPositions pos 60).headD defaultPosition).timestamp : ℤ) : ℝ) /
        1000 / 60 ≤ 0) :
    (paceUpdateB last hist cp pos now).2 = (hist, cp) := by
  simp only [paceUpdateB]
  split_ifs with h1 h2 h3
  · exact absurd h3.1 (not_lt.2 h)
  · rfl
  · rfl
  · rfl

theorem pu_valid (last : ℤ) (hist : List ℝ) (cp : String) (pos : List Position)
    (now : ℤ) (rd rt : ℝ)
    (hrd : rd = calculateTotalDistance (getRecentPositions pos 60))
    (hrt : rt = ((((getRecentPositions pos 60).getLastD defaultPosition).timestamp -
        ((getRecentPositions pos 60).headD defaultPosition).timestamp : ℤ) : ℝ) /
        1000 / 60)
    (h1 : 5000 < now - last) (h2 : 1 < (getRecentPositions pos 60).length)
    (h3 : 0 < rt) (h4 : 0 < rd) :
    paceUpdateB last hist cp pos now =
      (now, pushPace hist (rt / rd),
        formatPace ((pushPace hist (rt / rd)).foldl (· + ·) 0 /
          ((pushPace hist (rt / rd)).length : ℝ))) := by
  subst hrd hrt
  simp only [paceUpdateB]
  rw [if_pos h1, if_pos h2, if_pos ⟨h3, h4⟩]

theorem pu_bound (last : ℤ) (hist : List ℝ) (cp : String) (pos : List Position)
    (now : ℤ) (h : hist.length ≤ 3) :
    (paceUpdateB last hist cp pos now).2.1.length ≤ 3 := by
  simp only [paceUpdateB]
  split_ifs with h1 h2 h3
  · exact pushPace_length hist _ h
  · exact h
  · exact h
  · exact h

theorem fixReceivedB_pace (st : RecorderState) (fix : Position) (now : ℤ)
    (h1 : 1 < (st.positions ++ [fix]).length) (h2 : 0 < st.time)
    (h3 : 0 < calculateTotalDistance (st.positions ++ [fix])) :
    (fixReceivedB st fix now).lastPaceUpdate =
      (paceUpdateB st.lastPaceUpdate st.recentPaces st.currentPace
        (st.positions ++ [fix]) now).1 ∧
    (fixReceivedB st fix now).recentPaces =
      (paceUpdateB st.lastPaceUpdate st.recentPaces st.currentPace
        (st.positions ++ [fix]) now).2.1 ∧
    (fixReceivedB st fix now).currentPace =
      (paceUpdateB st.lastPaceUpdate st.recentPaces st.currentPace
        (st.positions ++ [fix]) now).2.2 := by
  simp only [fixReceivedB]
  rw [if_pos h1, if_pos ⟨h2, h3⟩]
  exact ⟨rfl, rfl, rfl⟩

theorem fixReceivedB_noPace (st : RecorderState) (fix : Position) (now : ℤ)
    (h : ¬(1 < (st.positions ++ [fix]).length) ∨
      ¬(0 < st.time ∧ 0 < calculateTotalDistance (st.positions ++ [fix]))) :
    (fixReceivedB st fix now).recentPaces = st.recentPaces ∧
    (fixReceivedB st fix now).currentPace = st.currentPace ∧
    (fixReceivedB st fix now).lastPaceUpdate = st.lastPaceUpdate := by
  simp only [fixReceivedB]
  rcases h with h | h
  · rw [if_neg h]
    exact ⟨rfl, rfl, rfl⟩
  · by_cases h1 : 1 < (st.positions ++ [fix]).length
    · rw [if_pos h1, if_neg h]
      exact ⟨rfl, rfl, rfl⟩
    · rw [if_neg h1]
      exact ⟨rfl, rfl, rfl⟩

theorem fixReceivedB_skip (st : RecorderState) (fix : Position) (now : ℤ)
    (hskip : (paceUpdateB st.lastPaceUpdate st.recentPaces st.currentPace
        (st.positions ++ [fix]) now).2 = (st.recentPaces, st.currentPace)) :
    (fixReceivedB st fix now).recentPaces = st.recentPaces ∧
    (fixReceivedB st fix now).currentPace = st.currentPace := by
  by_cases hg1 : 1 < (st.positions ++ [fix]).length
  · by_cases hg2 : 0 < st.time ∧ 0 < calculateTotalDistance (st.positions ++ [fix])
    · have hp := fixReceivedB_pace st fix now hg1 hg2.1 hg2.2
      constructor
      · rw [hp.2.1, hskip]
      · rw [hp.2.2, hskip]
    · have hn := fixReceivedB_noPace st fix now (Or.inr hg2)
      exact ⟨hn.1, hn.2.1⟩
  · have hn := fixReceivedB_noPace st fix now (Or.inl hg1)
    exact ⟨hn.1, hn.2.1⟩

/-- C2: while recording, the pace pipeline of the throttled variant
recomputes at most once per 5 seconds of wall clock (within 5 seconds of
the previous update nothing in the pace state changes); the update is
skipped — history and displayed pace unchanged — when the 60-second
window holds fewer than 2 fixes, when the window distance is 0, or when
the window elapsed time is at most 0; on a valid raw pace
`rt / rd` the value is appended to the capacity-3 history (oldest entry
evicted) and the displayed pace becomes the arithmetic mean of the
history formatted by `formatPace`; the history stays bounded by 3. -/
theorem c2_pace_pipeline (st : RecorderState) (fix : Position) (now : ℤ)
    (recent : List Position) (rd rt : ℝ)
    (hrec : recent = getRecentPositions (st.positions ++ [fix]) 60)
    (hrd : rd = calculateTotalDistance recent)
    (hrt : rt = (((recent.getLastD defaultPosition).timestamp -
        (recent.headD defaultPosition).timestamp : ℤ) : ℝ) / 1000 / 60) :
    (now - st.lastPaceUpdate ≤ 5000 →
      (fixReceivedB st fix now).recentPaces = st.recentPaces ∧
      (fixReceivedB st fix now).currentPace = st.currentPace) ∧
    (recent.length ≤ 1 →
      (fixReceivedB st fix now).recentPaces = st.recentPaces ∧
      (fixReceivedB st fix now).currentPace = st.currentPace) ∧
    (rd = 0 →
      (fixReceivedB st fix now).recentPaces = st.recentPaces ∧
      (fixReceivedB st fix now).currentPace = st.currentPace) ∧
    (rt ≤ 0 →
      (fixReceivedB st fix now).recentPaces = st.recentPaces ∧
      (fixReceivedB st fix now).currentPace = st.currentPace) ∧
    (0 < st.time → 1 < (st.positions ++ [fix]).length →
      0 < calculateTotalDistance (st.positions ++ [fix]) →
      5000 < now - st.lastPaceUpdate → 1 < recent.length → 0 < rd → 0 < rt →
      (fixReceivedB st fix now).lastPaceUpdate = now ∧
      (fixReceivedB st fix now).recentPaces = pushPace st.recentPaces (rt / rd) ∧
      (fixReceivedB st fix now).currentPace =
        formatPace ((pushPace st.recentPaces (rt / rd)).foldl (· + ·) 0 /
          ((pushPace st.recentPaces (rt / rd)).length : ℝ))) ∧
    (st.recentPaces.length ≤ 3 → (fixReceivedB st fix now).recentPaces.length ≤ 3) := by
  subst hrec hrd hrt
  refine ⟨?_, ?_, ?_, ?_, ?_, ?_⟩
  · intro h
    exact fixReceivedB_skip st fix now (by
      rw [pu_throttle st.lastPaceUpdate st.recentPaces st.currentPace
        (st.positions ++ [fix]) now h])
  · intro h
    exact fixReceivedB_skip st fix now (pu_skip_window _ _ _ _ _ h)
  · intro h
    exact fixReceivedB_skip st fix now (pu_skip_dist _ _ _ _ _ h)
  · intro h
    exact fixReceivedB_skip st fix now (pu_skip_time _ _ _ _ _ h)
  · intro ht hg1 hg3 h1 h2 h3 h4
    have hp := fixReceivedB_pace st fix now hg1 ht hg3
    have hv := pu_valid st.lastPaceUpdate st.recentPaces st.currentPace
      (st.positions ++ [fix]) now _ _ rfl rfl h1 h2 h4 h3
    exact ⟨by rw [hp.1, hv], by rw [hp.2.1, hv], by rw [hp.2.2, hv]⟩
  · intro hb
    by_cases hg1 : 1 < (st.positions ++ [fix]).length
    · by_cases hg2 : 0 < st.time ∧ 0 < calculateTotalDistance (st.positions ++ [fix])
      · rw [(fixReceivedB_pace st fix now hg1 hg2.1 hg2.2).2.1]
        exact pu_bound _ _ _ _ _ hb
      · rw [(fixReceivedB_noPace st fix now (Or.inr hg2)).1]
        exact hb
    · rw [(fixReceivedB_noPace st fix now (Or.inl hg1)).1]
      exact hb

/-! ## Concrete evaluations on the two-fix stream `f0`, `f1` -/

theorem dist_f0_f1 :
    calculateDistance f0 f1 = 6371 * ((1 / 100) * (Real.pi / 180)) := by
  have h := calculateDistance_same_lon f0 f1 rfl
    (by norm_num [f0, f1]) (by norm_num [f0, f1])
  rw [h]
  norm_num [deg2rad, f0, f1]

theorem tot_f0_f1 :
    calculateTotalDistance [f0, f1] = 6371 * ((1 / 100) * (Real.pi / 180)) := by
  rw [calculateTotalDistance_cons2, dist_f0_f1,
    show calculateTotalDistance [f1] = 0 from rfl, add_zero]

theorem tot_f0_f1_pos : 0 < calculateTotalDistance [f0, f1] := by
  rw [tot_f0_f1]
  positivity

theorem window60_f0_f1 : getRecentPositions [f0, f1] 60 = [f0, f1] := by
  simp only [getRecentPositions]
  norm_num [List.getLastD, List.filter, f0, f1]

theorem window30_f0_f1 : getRecentPositions [f0, f1] 30 = [f1] := by
  simp only [getRecentPositions]
  norm_num [List.getLastD, List.filter, f0, f1]

theorem rt_f0_f1 :
    (2 / 3 : ℝ) = (((([f0, f1] : List Position).getLastD defaultPosition).timestamp -
      (([f0, f1] : List Position).headD defaultPosition).timestamp : ℤ) : ℝ) / 1000 / 60 := by
  norm_num [List.getLastD, List.headD, f0, f1]

theorem fmt35 :
    formatPace ((2 / 3 : ℝ) / calculateTotalDistance [f0, f1]) = "0:35" := by
  rw [tot_f0_f1]
  have hD : (0:ℝ) < 6371 * ((1 / 100) * (Real.pi / 180)) := by positivity
  have hx0 : 0 ≤ (2 / 3 : ℝ) / (6371 * ((1 / 100) * (Real.pi / 180))) := by positivity
  have hx1 : (2 / 3 : ℝ) / (6371 * ((1 / 100) * (Real.pi / 180))) < 1 := by
    rw [div_lt_one hD]
    nlinarith [Real.pi_gt_d2]
  have hfloor : ⌊(2 / 3 : ℝ) / (6371 * ((1 / 100) * (Real.pi / 180)))⌋ = 0 :=
    Int.floor_eq_zero_iff.2 ⟨hx0, hx1⟩
  have hsimp : ((2 / 3 : ℝ) / (6371 * ((1 / 100) * (Real.pi / 180))) - ((0:ℤ):ℝ)) * 60 =
      40 / (6371 * ((1 / 100) * (Real.pi / 180))) := by
    push_cast
    ring
  have hsec : ⌊((2 / 3 : ℝ) / (6371 * ((1 / 100) * (Real.pi / 180))) - ((0:ℤ):ℝ)) * 60⌋ = 35 := by
    rw [hsimp, Int.floor_eq_iff]
    refine ⟨?_, ?_⟩
    · rw [show (((35:ℤ)):ℝ) = 35 by norm_num, le_div_iff₀ hD]
      nlinarith [Real.pi_lt_d2]
    · rw [show (((35:ℤ)):ℝ) + 1 = 36 by norm_num, div_lt_iff₀ hD]
      nlinarith [Real.pi_gt_d2]
  simp only [formatPace, hfloor, hsec]
  rfl

/-- C2 witness: with one prior fix at `t = 0`, a fix at `t = 40 s`
arriving at wall clock 40000 ms passes the throttle and the window
checks; the raw pace `(2/3) / distance` enters the history and the
display becomes its formatted value. -/
theorem c2_pace_pipeline_witness :
    (fixReceivedB { st0 with positions := [f0] } f1 40000).lastPaceUpdate = 40000 ∧
    (fixReceivedB { st0 with positions := [f0] } f1 40000).recentPaces =
      [(2 / 3 : ℝ) / calculateTotalDistance [f0, f1]] ∧
    (fixReceivedB { st0 with positions := [f0] } f1 40000).currentPace = "0:35" := by
  have hP : ({ st0 with positions := [f0] } : RecorderState).positions ++ [f1] =
      [f0, f1] := rfl
  have hrec : ([f0, f1] : List Position) =
      getRecentPositions
        (({ st0 with positions := [f0] } : RecorderState).positions ++ [f1]) 60 := by
    rw [hP, window60_f0_f1]
  have h := (c2_pace_pipeline { st0 with positions := [f0] } f1 40000 [f0, f1]
      (calculateTotalDistance [f0, f1]) (2 / 3) hrec rfl rt_f0_f1).2.2.2.2.1
      (by decide) (by decide) (by rw [hP]; exact tot_f0_f1_pos)
      (by decide) (by decide) tot_f0_f1_pos (by norm_num)
  refine ⟨h.1, ?_, ?_⟩
  · rw [h.2.1]
    norm_num [pushPace, st0]
  · rw [h.2.2]
    have havg : (pushPace ({ st0 with positions := [f0] } : RecorderState).recentPaces
          ((2 / 3 : ℝ) / calculateTotalDistance [f0, f1])).foldl (· + ·) 0 /
        ((pushPace ({ st0 with positions := [f0] } : RecorderState).recentPaces
          ((2 / 3 : ℝ) / calculateTotalDistance [f0, f1])).length : ℝ) =
        (2 / 3 : ℝ) / calculateTotalDistance [f0, f1] := by
      norm_num [pushPace, st0, List.foldl]
    rw [havg]
    exact fmt35

/-- C9: the two recorder variants' pace pipelines are not equivalent.
On the stream `f0` (t = 0) then `f1` (t = 40 s, delivered at wall clock
40000 ms), the unsmoothed 30-second-window variant A keeps the initial
display `"0:00"` (the 30-second window retains a single fix), while the
throttled 60-second-window variant B displays `"0:35"`. -/
theorem c9_pace_pipelines_differ :
    (fixReceivedA (fixReceivedA st0 f0) f1).currentPace = "0:00" ∧
    (fixReceivedB (fixReceivedB st0 f0 0) f1 40000).currentPace = "0:35" ∧
    (fixReceivedA (fixReceivedA st0 f0) f1).currentPace ≠
      (fixReceivedB (fixReceivedB st0 f0 0) f1 40000).currentPace := by
  have hP : ({ st0 with positions := [f0] } : RecorderState).positions ++ [f1] =
      [f0, f1] := rfl
  have hA1 : fixReceivedA st0 f0 = { st0 with positions := [f0] } := by
    simp [fixReceivedA, st0]
  have hB1 : fixReceivedB st0 f0 0 = { st0 with positions := [f0] } := by
    simp [fixReceivedB, st0]
  have hA2 : (fixReceivedA { st0 with positions := [f0] } f1).currentPace = "0:00" := by
    simp only [fixReceivedA, hP, window30_f0_f1]
    rw [if_pos (show (1:ℕ) < ([f0, f1] : List Position).length by decide)]
    rw [if_pos (show 0 < ({ st0 with positions := [f0] } : RecorderState).time ∧
      0 < calculateTotalDistance [f0, f1] from ⟨by decide, tot_f0_f1_pos⟩)]
    rw [if_neg (show ¬(1 < ([f1] : List Position).length) by decide)]
    rfl
  have hB2 : (fixReceivedB { st0 with positions := [f0] } f1 40000).currentPace =
      "0:35" := by
    have hpace := fixReceivedB_pace { st0 with positions := [f0] } f1 40000
      (by decide) (by decide) (by rw [hP]; exact tot_f0_f1_pos)
    have hv := pu_valid ({ st0 with positions := [f0] } : RecorderState).lastPaceUpdate
      ({ st0 with positions := [f0] } : RecorderState).recentPaces
      ({ st0 with positions := [f0] } : RecorderState).currentPace
      (({ st0 with positions := [f0] } : RecorderState).positions ++ [f1]) 40000
      (calculateTotalDistance [f0, f1]) (2 / 3)
      (by rw [hP, window60_f0_f1]) (by rw [hP, window60_f0_f1]; exact rt_f0_f1)
      (by decide) (by rw [hP, window60_f0_f1]; decide) (by norm_num) tot_f0_f1_pos
    rw [hpace.2.2, hv]
    have havg : (pushPace ({ st0 with positions := [f0] } : RecorderState).recentPaces
          ((2 / 3 : ℝ) / calculateTotalDistance [f0, f1])).foldl (· + ·) 0 /
        ((pushPace ({ st0 with positions := [f0] } : RecorderState).recentPaces
          ((2 / 3 : ℝ) / calculateTotalDistance [f0, f1])).length : ℝ) =
        (2 / 3 : ℝ) / calculateTotalDistance [f0, f1] := by
      norm_num [pushPace, st0, List.foldl]
    show formatPace _ = "0:35"
    rw [havg]
    exact fmt35
  refine ⟨?_, ?_, ?_⟩
  · rw [hA1]
    exact hA2
  · rw [hB1]
    exact hB2
  · rw [hA1, hB1, hA2, hB2]
    decide

end Unsmartwatch
